import Mathlib

/-!
Shallow embedding of `Tribler/community/market/database.py` (class `MarketDB`):
the persistence layer of the market community.  Tables are modelled as lists of
row records in insertion (rowid) order; each `MarketDB` method becomes a Lean
function on an explicit `MarketDBState`.  SQL `INTEGER`/`DOUBLE` columns are
modelled as `Int`, `TEXT` as `String`, `TIMESTAMP` as `Int`.  A primary-key
violation on `INSERT` (sqlite `IntegrityError`) is modelled as
`MarketError.duplicateKey`; the `assert` guards at the top of `check_database`
(an `AssertionError` on a malformed version string) as
`MarketError.invalidVersion`.
-/

namespace MarketDB

/-- Errors the embedded operations can signal: a primary-key violation on
insert, and a malformed version string rejected by `check_database`. -/
inductive MarketError where
  | duplicateKey
  | invalidVersion
deriving Repr, DecidableEq

/-! ## Schema manager / migration runner -/

/-- `LATEST_DB_VERSION = 2` from the source. -/
def LATEST_DB_VERSION : Nat := 2

/-- The 32 zero characters produced by Python's `'0' * 32`. -/
def thirtyTwoZeros : String := String.mk (List.replicate 32 '0')

/-- The literal upgrade script returned by `get_upgrade_script` for
`current_version == 1`: the three adjacent unicode literals concatenated, with
`%s` substituted by `'0' * 32`. -/
def upgradeScriptText1 : String :=
  "ALTER TABLE orders ADD COLUMN verified INTEGER DEFAULT 1 NOT NULL;UPDATE option SET value=\"2\" WHERE key = \"database_version\";ALTER TABLE ticks ADD COLUMN block_hash TEXT DEFAULT "
    ++ thirtyTwoZeros ++ " NOT NULL;"

/-- `MarketDB.get_upgrade_script`: returns the literal script for version 1 and
(implicitly, by falling off the end of the Python function) `None` for every
other version. -/
def get_upgrade_script (current_version : Nat) : Option String :=
  if current_version = 1 then some upgradeScriptText1 else none

/-- The body of the `while database_version < LATEST_DB_VERSION` loop of
`MarketDB.check_database`, with the script table and the latest-version
constant as parameters: at each step it asks `getScript` for the current
version's script, executes it when one is defined (executed scripts are
recorded in a list), and increments the version counter regardless.  The
structural `fuel` argument bounds the iteration count; `migrateLoop` below
supplies `latest - v`, which is exact for the `v < latest` guard. -/
def migrateGo (getScript : Nat → Option String) (latest : Nat) :
    Nat → Nat → List String × Nat
  | 0, v => ([], v)
  | fuel + 1, v =>
    if v < latest then
      let rest := migrateGo getScript latest fuel (v + 1)
      ((match getScript v with
        | some s => [s]
        | none => []) ++ rest.1, rest.2)
    else ([], v)

/-- The `while database_version < LATEST_DB_VERSION` loop of
`MarketDB.check_database`: returns the executed scripts and the final value
of the version counter. -/
def migrateLoop (getScript : Nat → Option String) (latest v : Nat) :
    List String × Nat :=
  migrateGo getScript latest (latest - v) v

/-- The `assert database_version.isdigit()` guard: Python's `unicode.isdigit`
is true exactly on nonempty all-digit strings (restricted to ASCII digits in
this model). -/
def isDigitString (s : String) : Bool :=
  s.data.length > 0 && s.data.all Char.isDigit

/-- Python's `int(...)` on a digit string. -/
def strToNat (s : String) : Nat :=
  s.data.foldl (fun n c => n * 10 + (c.toNat - '0'.toNat)) 0

/-- What a run of `check_database` did: whether the full schema script was
executed (the `database_version == 0` branch), which upgrade scripts the
migration loop executed, and the returned value. -/
structure CheckResult where
  ranInitSchema : Bool
  upgradesRun : List String
  returnValue : Nat
deriving Repr, DecidableEq

/-- `MarketDB.check_database`: asserts the stored version string is a digit
string (`invalidVersion` otherwise; the further `assert int(...) >= 0` can
never fail after `isdigit`), executes the full schema when the version is 0
and sets the counter to `LATEST_DB_VERSION`, then runs the upgrade loop and
returns `LATEST_DB_VERSION`. -/
def check_database (database_version : String) : Except MarketError CheckResult :=
  if isDigitString database_version then
    let v := strToNat database_version
    if v = 0 then
      let res := migrateLoop get_upgrade_script LATEST_DB_VERSION LATEST_DB_VERSION
      .ok ⟨true, res.1, LATEST_DB_VERSION⟩
    else
      let res := migrateLoop get_upgrade_script LATEST_DB_VERSION v
      .ok ⟨false, res.1, LATEST_DB_VERSION⟩
  else
    .error .invalidVersion

/-! ## Data model: rows of the market tables

Row records follow the column lists of the `schema` string in the source,
one field per column, in column order. -/

/-- A composite order identifier `(trader_id, order_number)`, as in
`core.order.OrderId`. -/
structure OrderId where
  trader_id : String
  order_number : Int
deriving Repr, DecidableEq

/-- A composite transaction identifier `(trader_id, transaction_number)`, as
in `core.transaction.TransactionId`. -/
structure TransactionId where
  trader_id : String
  transaction_number : Int
deriving Repr, DecidableEq

/-- A quantity value together with its wallet/asset kind, as stored by
`add_reserved_tick` (`float(quantity)`, `quantity.wallet_id`). -/
structure QuantityVal where
  amount : Int
  wallet_id : String
deriving Repr, DecidableEq

/-- A row of the `orders` table.  PRIMARY KEY `(trader_id, order_number)`. -/
structure OrderRow where
  trader_id : String
  order_number : Int
  price : Int
  price_type : String
  quantity : Int
  quantity_type : String
  traded_quantity : Int
  timeout : Int
  order_timestamp : Int
  completed_timestamp : Option Int
  is_ask : Int
  cancelled : Int
  verified : Int
deriving Repr, DecidableEq

/-- A row of the `orders_reserved_ticks` table.  PRIMARY KEY
`(trader_id, order_number, reserved_trader_id, reserved_order_number)`. -/
structure ReservedTickRow where
  trader_id : String
  order_number : Int
  reserved_trader_id : String
  reserved_order_number : Int
  quantity : Int
  quantity_type : String
deriving Repr, DecidableEq

/-- A row of the `transactions` table.  PRIMARY KEY
`(trader_id, transaction_number)`. -/
structure TransactionRow where
  trader_id : String
  transaction_number : Int
  order_trader_id : String
  order_number : Int
  partner_trader_id : String
  partner_order_number : Int
  price : Int
  price_type : String
  transferred_price : Int
  quantity : Int
  quantity_type : String
  transferred_quantity : Int
  transaction_timestamp : Int
  sent_wallet_info : Int
  received_wallet_info : Int
  incoming_address : String
  outgoing_address : String
  partner_incoming_address : String
  partner_outgoing_address : String
  match_id : String
deriving Repr, DecidableEq

/-- A row of the `payments` table.  PRIMARY KEY
`(trader_id, message_number, transaction_trader_id, transaction_number)`. -/
structure PaymentRow where
  trader_id : String
  message_number : String
  transaction_trader_id : String
  transaction_number : Int
  payment_id : String
  transferee_quantity : Int
  quantity_type : String
  transferee_price : Int
  price_type : String
  address_from : String
  address_to : String
  timestamp : Int
  success : Int
deriving Repr, DecidableEq

/-- A row of the `traders` table.  PRIMARY KEY `(trader_id)`. -/
structure TraderRow where
  trader_id : String
  ip_address : String
  port : Int
deriving Repr, DecidableEq

/-- The mutable store: one list of rows per market table, in insertion
(rowid) order.  The `blocks` and `ticks` tables play no role in the claims
under verification and are omitted. -/
structure MarketDBState where
  orders : List OrderRow
  orders_reserved_ticks : List ReservedTickRow
  transactions : List TransactionRow
  payments : List PaymentRow
  traders : List TraderRow
deriving Repr, DecidableEq

/-- A store with every table empty. -/
def emptyDB : MarketDBState := ⟨[], [], [], [], []⟩

/-! ## Entity mapper operations -/

/-- `WHERE trader_id = ? AND order_number = ?` on an `orders` row. -/
def orderKeyIs (oid : OrderId) (r : OrderRow) : Bool :=
  r.trader_id == oid.trader_id && r.order_number == oid.order_number

/-- `WHERE trader_id = ? AND order_number = ?` on an `orders_reserved_ticks`
row: the two owner columns of the composite key. -/
def reservedOwnerIs (oid : OrderId) (r : ReservedTickRow) : Bool :=
  r.trader_id == oid.trader_id && r.order_number == oid.order_number

/-- `MarketDB.get_reserved_ticks`: select the reserved-tick rows of an order
and rebuild `(OrderId(reserved_trader_id, reserved_order_number),
Quantity(quantity, quantity_type))` pairs. -/
def get_reserved_ticks (db : MarketDBState) (order_id : OrderId) :
    List (OrderId × QuantityVal) :=
  (db.orders_reserved_ticks.filter (reservedOwnerIs order_id)).map
    fun r => (⟨r.reserved_trader_id, r.reserved_order_number⟩,
              ⟨r.quantity, r.quantity_type⟩)

/-- `MarketDB.add_reserved_tick`: `INSERT INTO orders_reserved_ticks ...`
with the owner order id, the reserved order id and the quantity; a row with
the same four-column primary key raises `duplicateKey` and leaves the store
unchanged. -/
def add_reserved_tick (db : MarketDBState) (order_id reserved_order_id : OrderId)
    (quantity : QuantityVal) : MarketDBState × Option MarketError :=
  let row : ReservedTickRow :=
    ⟨order_id.trader_id, order_id.order_number,
     reserved_order_id.trader_id, reserved_order_id.order_number,
     quantity.amount, quantity.wallet_id⟩
  if db.orders_reserved_ticks.any fun x =>
      x.trader_id == row.trader_id && x.order_number == row.order_number &&
      x.reserved_trader_id == row.reserved_trader_id &&
      x.reserved_order_number == row.reserved_order_number then
    (db, some .duplicateKey)
  else
    ({ db with orders_reserved_ticks := db.orders_reserved_ticks ++ [row] }, none)

/-- The `for reserved_order_id, quantity in order.reserved_ticks.iteritems()`
loop of `add_order`: insert each reserved tick in turn; a raised error aborts
the loop, keeping the rows inserted so far (each insert commits on its own). -/
def addReservedTicksLoop (db : MarketDBState) (order_id : OrderId) :
    List (OrderId × QuantityVal) → MarketDBState × Option MarketError
  | [] => (db, none)
  | (rid, q) :: rest =>
    match add_reserved_tick db order_id rid q with
    | (db', none) => addReservedTicksLoop db' order_id rest
    | (db', some e) => (db', some e)

/-- `MarketDB.add_order`: `INSERT INTO orders ...` of `order.to_database()`
(a strict insert on primary key `(trader_id, order_number)`), then one
`add_reserved_tick` per entry of the order's reservation dict.  The order
aggregate arrives as its serialized row plus its reservation list. -/
def add_order (db : MarketDBState) (row : OrderRow)
    (reserved : List (OrderId × QuantityVal)) : MarketDBState × Option MarketError :=
  if db.orders.any (orderKeyIs ⟨row.trader_id, row.order_number⟩) then
    (db, some .duplicateKey)
  else
    addReservedTicksLoop { db with orders := db.orders ++ [row] }
      ⟨row.trader_id, row.order_number⟩ reserved

/-- Modelled from the spec: `Order.from_database` (in `core/order.py`, not
part of the sources under verification) rebuilds the order aggregate from
its row and its reservation list; per §3/§8 of the spec the aggregate's
scalar fields and reservation set are exactly those the row and list carry,
so the aggregate is modelled as the pair of the two. -/
def Order_from_database (row : OrderRow)
    (reserved_ticks : List (OrderId × QuantityVal)) :
    OrderRow × List (OrderId × QuantityVal) :=
  (row, reserved_ticks)

/-- `MarketDB.get_order`: fetch the first `orders` row with the given
composite key (`None` when absent) and attach the reservation list, as
`Order.from_database(db_result, self.get_reserved_ticks(order_id))`. -/
def get_order (db : MarketDBState) (order_id : OrderId) :
    Option (OrderRow × List (OrderId × QuantityVal)) :=
  match db.orders.find? (orderKeyIs order_id) with
  | none => none
  | some r => some (Order_from_database r (get_reserved_ticks db order_id))

/-- `MarketDB.delete_reserved_ticks`: `DELETE FROM orders_reserved_ticks`
for every row owned by the order. -/
def delete_reserved_ticks (db : MarketDBState) (order_id : OrderId) :
    MarketDBState :=
  { db with orders_reserved_ticks :=
      db.orders_reserved_ticks.filter fun r => !(reservedOwnerIs order_id r) }

/-- `MarketDB.delete_order`: delete the `orders` row with the composite key,
then `delete_reserved_ticks` for the same key. -/
def delete_order (db : MarketDBState) (order_id : OrderId) : MarketDBState :=
  delete_reserved_ticks
    { db with orders := db.orders.filter fun r => !(orderKeyIs order_id r) }
    order_id

/-- `SELECT MAX(order_number) FROM orders`: `none` models SQL `NULL` on an
empty table. -/
def maxOrderNumber (db : MarketDBState) : Option Int :=
  (db.orders.map fun r => r.order_number).max?

/-- `MarketDB.get_next_order_number`: Python's `if not highest_order_number[0]`
is taken both when the `MAX` is `NULL` (empty table) and when it is `0`. -/
def get_next_order_number (db : MarketDBState) : Int :=
  match maxOrderNumber db with
  | none => 1
  | some m => if m == 0 then 1 else m + 1

/-- `SELECT MAX(transaction_number) FROM transactions`. -/
def maxTransactionNumber (db : MarketDBState) : Option Int :=
  (db.transactions.map fun r => r.transaction_number).max?

/-- `MarketDB.get_next_transaction_number`: same shape as
`get_next_order_number`. -/
def get_next_transaction_number (db : MarketDBState) : Int :=
  match maxTransactionNumber db with
  | none => 1
  | some m => if m == 0 then 1 else m + 1

/-- `WHERE trader_id = ? AND transaction_number = ?` on a `transactions`
row. -/
def transactionKeyIs (tid : TransactionId) (r : TransactionRow) : Bool :=
  r.trader_id == tid.trader_id && r.transaction_number == tid.transaction_number

/-- `WHERE transaction_trader_id = ? AND transaction_number = ?` on a
`payments` row: the owning transaction's columns. -/
def paymentBelongsTo (tid : TransactionId) (p : PaymentRow) : Bool :=
  p.transaction_trader_id == tid.trader_id &&
    p.transaction_number == tid.transaction_number

/-- `MarketDB.get_payments`: select the payments of a transaction
`ORDER BY timestamp ASC`; the SQL sort is modelled by `mergeSort` on the
timestamp column over the rows in insertion order. -/
def get_payments (db : MarketDBState) (transaction_id : TransactionId) :
    List PaymentRow :=
  (db.payments.filter (paymentBelongsTo transaction_id)).mergeSort
    fun a b => a.timestamp ≤ b.timestamp

/-- `MarketDB.delete_payments`: delete every payment owned by the
transaction. -/
def delete_payments (db : MarketDBState) (transaction_id : TransactionId) :
    MarketDBState :=
  { db with payments :=
      db.payments.filter fun p => !(paymentBelongsTo transaction_id p) }

/-- `MarketDB.add_payment`: `INSERT INTO payments ...` of
`payment.to_database()`, strict on the four-column primary key. -/
def add_payment (db : MarketDBState) (p : PaymentRow) :
    MarketDBState × Option MarketError :=
  if db.payments.any fun x =>
      x.trader_id == p.trader_id && x.message_number == p.message_number &&
      x.transaction_trader_id == p.transaction_trader_id &&
      x.transaction_number == p.transaction_number then
    (db, some .duplicateKey)
  else
    ({ db with payments := db.payments ++ [p] }, none)

/-- The `for payment in transaction.payments` loop of `add_transaction`:
insert each payment in turn, aborting on the first error. -/
def addPaymentsLoop (db : MarketDBState) :
    List PaymentRow → MarketDBState × Option MarketError
  | [] => (db, none)
  | p :: rest =>
    match add_payment db p with
    | (db', none) => addPaymentsLoop db' rest
    | (db', some e) => (db', some e)

/-- `MarketDB.add_transaction`: `INSERT INTO transactions ...` of
`transaction.to_database()` (strict insert on primary key
`(trader_id, transaction_number)`; a duplicate key raises before anything
else happens), then `delete_payments(transaction.transaction_id)`, then one
`add_payment` per element of `transaction.payments`. -/
def add_transaction (db : MarketDBState) (row : TransactionRow)
    (payments : List PaymentRow) : MarketDBState × Option MarketError :=
  if db.transactions.any (transactionKeyIs ⟨row.trader_id, row.transaction_number⟩) then
    (db, some .duplicateKey)
  else
    let db := { db with transactions := db.transactions ++ [row] }
    let db := delete_payments db ⟨row.trader_id, row.transaction_number⟩
    addPaymentsLoop db payments

/-- `MarketDB.add_trader_identity`: `INSERT OR REPLACE INTO traders`, which
deletes any row with the same primary key `trader_id` and appends the new
row. -/
def add_trader_identity (db : MarketDBState) (trader_id ip : String)
    (port : Int) : MarketDBState :=
  { db with traders :=
      (db.traders.filter fun r => !(r.trader_id == trader_id)) ++
        [⟨trader_id, ip, port⟩] }

/-- `MarketDB.get_traders`: the whole `traders` table. -/
def get_traders (db : MarketDBState) : List TraderRow :=
  db.traders

/-! ## Migration lemmas -/

/-- With exact fuel `latest - v`, the loop executes the scripts defined for
the versions `v, v+1, …, latest-1` and ends with the counter at `latest`. -/
theorem migrateGo_spec (gs : Nat → Option String) (latest : Nat) :
    ∀ (fuel v : Nat), fuel = latest - v → v ≤ latest →
      migrateGo gs latest fuel v = ((List.range' v fuel).filterMap gs, latest)
  | 0, v, hf, hv => by
    have hvl : v = latest := by omega
    simp [migrateGo, hvl]
  | fuel + 1, v, hf, hv => by
    have hlt : v < latest := by omega
    have ih := migrateGo_spec gs latest fuel (v + 1) (by omega) (by omega)
    simp only [migrateGo, if_pos hlt, ih, List.range'_succ, List.filterMap_cons]
    cases h : gs v <;> simp

/-- The migration loop started at `v ≤ latest` executes exactly the scripts
defined on `[v, latest)` and reaches `latest`. -/
theorem migrateLoop_spec (gs : Nat → Option String) (latest v : Nat)
    (h : v ≤ latest) :
    migrateLoop gs latest v = ((List.range' v (latest - v)).filterMap gs, latest) :=
  migrateGo_spec gs latest (latest - v) v rfl h

/-- The migration loop started at or past `latest` does nothing. -/
theorem migrateLoop_ge (gs : Nat → Option String) (latest v : Nat)
    (h : latest ≤ v) : migrateLoop gs latest v = ([], v) := by
  unfold migrateLoop
  have h0 : latest - v = 0 := by omega
  rw [h0]
  rfl

/-! ## Claim theorems: migration runner -/

/-- C4: `check_database` rejects every stored version string that is not a
nonempty digit string (in particular a negative-number string such as "-1"
or a non-numeric string) with `invalidVersion`; on every digit string it
succeeds, performing the transition sequence, and returns the latest version
constant. -/
theorem check_database_validates (s : String) :
    (isDigitString s = false → check_database s = .error .invalidVersion) ∧
    (isDigitString s = true → ∃ r : CheckResult,
      check_database s = .ok r ∧ r.returnValue = LATEST_DB_VERSION) := by
  constructor
  · intro h
    simp [check_database, h]
  · intro h
    by_cases h0 : strToNat s = 0
    · refine ⟨⟨true, (migrateLoop get_upgrade_script LATEST_DB_VERSION
        LATEST_DB_VERSION).1, LATEST_DB_VERSION⟩, ?_, rfl⟩
      simp [check_database, h, h0]
    · refine ⟨⟨false, (migrateLoop get_upgrade_script LATEST_DB_VERSION
        (strToNat s)).1, LATEST_DB_VERSION⟩, ?_, rfl⟩
      simp [check_database, h, h0]

/-- Witness for C4 at the concrete inputs "-1", "foo" and "2". -/
theorem check_database_validates_witness :
    check_database "-1" = .error .invalidVersion ∧
    check_database "foo" = .error .invalidVersion ∧
    ∃ r : CheckResult, check_database "2" = .ok r ∧
      r.returnValue = LATEST_DB_VERSION :=
  ⟨(check_database_validates "-1").1 (by decide),
   (check_database_validates "foo").1 (by decide),
   (check_database_validates "2").2 (by decide)⟩

/-- C10: on a digit-string version strictly above `LATEST_DB_VERSION`,
`check_database` accepts the input, executes neither the schema
initialization nor any upgrade script (so stored schema and version marker
are untouched), and still returns `LATEST_DB_VERSION` — a value below the
store's actual version. -/
theorem check_database_future_version (s : String)
    (hd : isDigitString s = true) (hv : LATEST_DB_VERSION < strToNat s) :
    check_database s = .ok ⟨false, [], LATEST_DB_VERSION⟩ := by
  have h2 : (2 : Nat) < strToNat s := hv
  have h0 : ¬ strToNat s = 0 := by omega
  have hge : LATEST_DB_VERSION ≤ strToNat s := Nat.le_of_lt hv
  simp [check_database, hd, h0, migrateLoop_ge get_upgrade_script _ _ hge]

/-- Witness for C10 at the concrete stored version "3". -/
theorem check_database_future_version_witness :
    check_database "3" = .ok ⟨false, [], LATEST_DB_VERSION⟩ :=
  check_database_future_version "3" (by decide) (by decide)

/-- C3: from stored version "1", `check_database` executes exactly the
literal 1→2 upgrade script — `ALTER TABLE orders ADD COLUMN verified INTEGER
DEFAULT 1 NOT NULL`, setting the stored version marker to "2", and
`ALTER TABLE ticks ADD COLUMN block_hash TEXT DEFAULT <32 zeros> NOT NULL` —
and returns the latest version constant 2. -/
theorem check_database_upgrade_from_one :
    check_database "1" = .ok ⟨false, [upgradeScriptText1], LATEST_DB_VERSION⟩ ∧
    upgradeScriptText1 =
      "ALTER TABLE orders ADD COLUMN verified INTEGER DEFAULT 1 NOT NULL;" ++
        "UPDATE option SET value=\"2\" WHERE key = \"database_version\";" ++
        ("ALTER TABLE ticks ADD COLUMN block_hash TEXT DEFAULT " ++
          String.mk (List.replicate 32 '0') ++ " NOT NULL;") ∧
    LATEST_DB_VERSION = 2 :=
  ⟨by rfl, by rfl, rfl⟩

/-- C1 counterexample: in a migration-loop configuration whose script table
defines no script for the intermediate version 1 (latest = 2), the loop does
not stop with an error: it executes nothing and still advances the version
counter to 2. -/
theorem migrateLoop_missing_script_cex :
    migrateLoop (fun _ => none) 2 1 = ([], 2) := by
  decide

/-- C1 amended: an upgrade step whose version has no defined script is
silently skipped — the loop behaves as if started at the next version,
raises no error (the loop is total, and no missing-script error exists in
the code), and the counter still reaches `latest`. -/
theorem migrateLoop_skips_missing_script (gs : Nat → Option String)
    (latest v : Nat) (hv : v < latest) (hnone : gs v = none) :
    migrateLoop gs latest v = migrateLoop gs latest (v + 1) ∧
    (migrateLoop gs latest v).2 = latest := by
  have h1 := migrateLoop_spec gs latest v (Nat.le_of_lt hv)
  have h2 := migrateLoop_spec gs latest (v + 1) hv
  constructor
  · rw [h1, h2]
    have hd : latest - v = (latest - (v + 1)) + 1 := by omega
    rw [hd, List.range'_succ]
    simp [List.filterMap_cons, hnone]
  · rw [h1]

/-- Witness for the amended C1: with the source's own script table and a
hypothetical latest version 3, the scriptless version 2 is skipped and the
counter reaches 3. -/
theorem migrateLoop_skips_missing_script_witness :
    migrateLoop get_upgrade_script 3 2 = migrateLoop get_upgrade_script 3 3 ∧
    (migrateLoop get_upgrade_script 3 2).2 = 3 :=
  migrateLoop_skips_missing_script get_upgrade_script 3 2 (by decide) (by decide)

/-! ## Claim theorems: entity mapper -/

/-- A sample `orders` row with a given order number, for concrete witnesses. -/
def sampleOrderRow (n : Int) : OrderRow :=
  ⟨"a", n, 10, "EUR", 4, "BTC", 0, 3600, 1000, none, 1, 0, 1⟩

/-- C5: `get_next_order_number` and `get_next_transaction_number` return the
global maximum number across all traders plus one, and 1 on an empty
table. -/
theorem next_numbers_global_max_plus_one (db : MarketDBState) :
    (db.orders = [] → get_next_order_number db = 1) ∧
    (∀ m : Int, maxOrderNumber db = some m → get_next_order_number db = m + 1) ∧
    (db.transactions = [] → get_next_transaction_number db = 1) ∧
    (∀ m : Int, maxTransactionNumber db = some m →
      get_next_transaction_number db = m + 1) := by
  refine ⟨?_, ?_, ?_, ?_⟩
  · intro h
    simp [get_next_order_number, maxOrderNumber, h]
  · intro m hm
    simp only [get_next_order_number, hm]
    rcases eq_or_ne m 0 with h0 | h0
    · subst h0; simp
    · simp [h0]
  · intro h
    simp [get_next_transaction_number, maxTransactionNumber, h]
  · intro m hm
    simp only [get_next_transaction_number, hm]
    rcases eq_or_ne m 0 with h0 | h0
    · subst h0; simp
    · simp [h0]

/-- Witness for C5: with orders numbered 3 and 5 the next order number is 6;
on the empty store it is 1. -/
theorem next_numbers_global_max_plus_one_witness :
    get_next_order_number ⟨[sampleOrderRow 3, sampleOrderRow 5], [], [], [], []⟩ = 6 ∧
    get_next_order_number emptyDB = 1 :=
  ⟨by simpa using
      (next_numbers_global_max_plus_one
        ⟨[sampleOrderRow 3, sampleOrderRow 5], [], [], [], []⟩).2.1 5 (by decide),
   (next_numbers_global_max_plus_one emptyDB).1 rfl⟩

/-- C6: `get_payments` returns the payments belonging to the transaction
(a permutation of the table filter, so insertion order is irrelevant) sorted
by timestamp ascending. -/
theorem get_payments_sorted_by_timestamp (db : MarketDBState)
    (tid : TransactionId) :
    List.Pairwise (fun a b : PaymentRow => a.timestamp ≤ b.timestamp)
      (get_payments db tid) ∧
    (get_payments db tid).Perm (db.payments.filter (paymentBelongsTo tid)) := by
  constructor
  · have hs := @List.sorted_mergeSort PaymentRow
      (fun a b : PaymentRow => a.timestamp ≤ b.timestamp)
      (fun a b c hab hbc => by
        simp only [decide_eq_true_eq] at *
        exact le_trans hab hbc)
      (fun a b => by
        simp only [Bool.or_eq_true, decide_eq_true_eq]
        exact Int.le_total a.timestamp b.timestamp)
      (db.payments.filter (paymentBelongsTo tid))
    exact hs.imp fun h => by simpa using h
  · exact List.mergeSort_perm _ _

/-- C7: `delete_order` removes the order row and cascade-deletes all of the
order's reservation-link rows: afterwards `get_order` is `none`,
`get_reserved_ticks` is empty, and no reservation row owned by that order
remains. -/
theorem delete_order_cascades (db : MarketDBState) (oid : OrderId) :
    get_order (delete_order db oid) oid = none ∧
    get_reserved_ticks (delete_order db oid) oid = [] ∧
    ∀ r ∈ (delete_order db oid).orders_reserved_ticks,
      reservedOwnerIs oid r = false := by
  refine ⟨?_, ?_, ?_⟩
  · have hf : (delete_order db oid).orders.find? (orderKeyIs oid) = none := by
      rw [List.find?_eq_none]
      intro x hx
      simp only [delete_order, delete_reserved_ticks, List.mem_filter,
        Bool.not_eq_eq_eq_not, Bool.not_true] at hx
      simp [hx.2]
    rw [get_order, hf]
  · simp [get_reserved_ticks, delete_order, delete_reserved_ticks,
      List.filter_filter]
  · intro r hr
    simp only [delete_order, delete_reserved_ticks, List.mem_filter,
      Bool.not_eq_eq_eq_not, Bool.not_true] at hr
    exact hr.2

/-- C9: two `add_trader_identity` calls for the same trader id leave exactly
one `traders` row for that id, holding the second call's ip and port. -/
theorem add_trader_identity_upsert (db : MarketDBState) (tid ip1 ip2 : String)
    (port1 port2 : Int) :
    ((add_trader_identity (add_trader_identity db tid ip1 port1) tid ip2
        port2).traders.filter fun r => r.trader_id == tid) =
      [⟨tid, ip2, port2⟩] := by
  simp [add_trader_identity, List.filter_append, List.filter_filter]

/-! ## Claim C2: add_transaction and payment replacement -/

/-- A concrete `transactions` row T with id ("t", 1). -/
def txRowT : TransactionRow :=
  ⟨"t", 1, "t", 1, "u", 2, 50, "EUR", 0, 4, "BTC", 0, 100, 0, 0,
   "a1", "a2", "a3", "a4", "m"⟩

/-- Payment P1 of transaction ("t", 1), timestamp 110. -/
def payRowP1 : PaymentRow :=
  ⟨"t", "m1", "t", 1, "pay1", 1, "BTC", 10, "EUR", "x", "y", 110, 1⟩

/-- Payment P2 of transaction ("t", 1), timestamp 120. -/
def payRowP2 : PaymentRow :=
  ⟨"t", "m2", "t", 1, "pay2", 2, "BTC", 20, "EUR", "x", "y", 120, 1⟩

/-- Payment P3 of transaction ("t", 1), timestamp 130. -/
def payRowP3 : PaymentRow :=
  ⟨"t", "m3", "t", 1, "pay3", 1, "BTC", 10, "EUR", "x", "y", 130, 1⟩

/-- C2 counterexample: storing T with payments [P1] succeeds, but re-adding
T with payments [P2, P3] violates the `(trader_id, transaction_number)`
primary key of `transactions` before the payment list is touched, so
`get_payments` still returns [P1], not [P2, P3]. -/
theorem add_transaction_readd_cex :
    (add_transaction emptyDB txRowT [payRowP1]).2 = none ∧
    (add_transaction (add_transaction emptyDB txRowT [payRowP1]).1 txRowT
        [payRowP2, payRowP3]).2 = some .duplicateKey ∧
    get_payments (add_transaction (add_transaction emptyDB txRowT
        [payRowP1]).1 txRowT [payRowP2, payRowP3]).1 ⟨"t", 1⟩ = [payRowP1] ∧
    [payRowP1] ≠ [payRowP2, payRowP3] := by
  refine ⟨by decide, by decide, ?_, by decide⟩
  have hstate : (add_transaction (add_transaction emptyDB txRowT
      [payRowP1]).1 txRowT [payRowP2, payRowP3]).1.payments = [payRowP1] := by
    decide
  have hfilter : [payRowP1].filter (paymentBelongsTo ⟨"t", 1⟩) = [payRowP1] := by
    decide
  simp [get_payments, hstate, hfilter]

/-- C2 amended: calling `add_transaction` for a transaction id whose row is
already stored fails with `duplicateKey` and leaves the store — including
the stored payment list — unchanged; the clear-then-reinsert of the payment
list happens only when the insert of the transactions row succeeds. -/
theorem add_transaction_duplicate_key (db : MarketDBState)
    (row : TransactionRow) (payments : List PaymentRow)
    (h : db.transactions.any
      (transactionKeyIs ⟨row.trader_id, row.transaction_number⟩) = true) :
    add_transaction db row payments = (db, some .duplicateKey) := by
  simp [add_transaction, h]

/-- Witness for the amended C2: the re-add of T from the counterexample
scenario fails with `duplicateKey`, state unchanged. -/
theorem add_transaction_duplicate_key_witness :
    add_transaction (add_transaction emptyDB txRowT [payRowP1]).1 txRowT
        [payRowP2, payRowP3] =
      ((add_transaction emptyDB txRowT [payRowP1]).1, some .duplicateKey) :=
  add_transaction_duplicate_key (add_transaction emptyDB txRowT [payRowP1]).1
    txRowT [payRowP2, payRowP3] (by decide)

/-! ## Claim C8: add_order / get_order round trip -/

/-- The `orders_reserved_ticks` row that `add_reserved_tick` writes for
owner `oid` and reservation entry `p`. -/
def reservedRowOf (oid : OrderId) (p : OrderId × QuantityVal) :
    ReservedTickRow :=
  ⟨oid.trader_id, oid.order_number, p.1.trader_id, p.1.order_number,
   p.2.amount, p.2.wallet_id⟩

/-- Loop invariant of `addReservedTicksLoop`: if the store's reservation
rows owned by `oid` are exactly those of the already-processed prefix
`done`, and the reserved order ids of `done ++ rest` are distinct, then the
loop succeeds, leaves `orders` untouched, and ends with the owned rows being
exactly those of `done ++ rest`, in order. -/
theorem addReservedTicksLoop_spec (oid : OrderId) :
    ∀ (rest done : List (OrderId × QuantityVal)) (db : MarketDBState),
      db.orders_reserved_ticks.filter (reservedOwnerIs oid) =
        done.map (reservedRowOf oid) →
      ((done ++ rest).map Prod.fst).Nodup →
      (addReservedTicksLoop db oid rest).2 = none ∧
      (addReservedTicksLoop db oid rest).1.orders = db.orders ∧
      (addReservedTicksLoop db oid rest).1.orders_reserved_ticks.filter
        (reservedOwnerIs oid) = (done ++ rest).map (reservedRowOf oid)
  | [], done, db, hfilter, hnodup => by
    simpa [addReservedTicksLoop] using hfilter
  | (rid, q) :: rest, done, db, hfilter, hnodup => by
    have hrid : rid ∉ done.map Prod.fst := by
      have hd := List.disjoint_of_nodup_append
        (by simpa [List.map_append] using hnodup)
      intro hmem
      exact hd hmem (by simp)
    have hclash : (db.orders_reserved_ticks.any fun x =>
        x.trader_id == oid.trader_id && x.order_number == oid.order_number &&
        x.reserved_trader_id == rid.trader_id &&
        x.reserved_order_number == rid.order_number) = false := by
      rw [List.any_eq_false]
      intro x hx hcl
      simp only [Bool.and_eq_true, beq_iff_eq] at hcl
      obtain ⟨⟨⟨h1, h2⟩, h3⟩, h4⟩ := hcl
      have hxmem : x ∈ db.orders_reserved_ticks.filter (reservedOwnerIs oid) := by
        rw [List.mem_filter]
        exact ⟨hx, by simp [reservedOwnerIs, h1, h2]⟩
      rw [hfilter] at hxmem
      obtain ⟨p, hp, hpx⟩ := List.mem_map.mp hxmem
      apply hrid
      have hp1 : p.1 = rid := by
        subst hpx
        simp only [reservedRowOf] at h3 h4
        rcases rid with ⟨rt, rn⟩
        rcases hq : p.1 with ⟨pt, pn⟩
        rw [hq] at h3 h4
        simp_all
      exact hp1 ▸ List.mem_map_of_mem Prod.fst hp
    have horig : (add_reserved_tick db oid rid q) =
        ({ db with orders_reserved_ticks :=
            db.orders_reserved_ticks ++ [reservedRowOf oid (rid, q)] }, none) := by
      simp [add_reserved_tick, reservedRowOf, hclash]
    have hfilter' : ({ db with orders_reserved_ticks :=
        db.orders_reserved_ticks ++ [reservedRowOf oid (rid, q)] } :
          MarketDBState).orders_reserved_ticks.filter (reservedOwnerIs oid) =
        (done ++ [(rid, q)]).map (reservedRowOf oid) := by
      rw [List.filter_append, hfilter]
      simp [reservedOwnerIs, reservedRowOf]
    have hnodup' : (((done ++ [(rid, q)]) ++ rest).map Prod.fst).Nodup := by
      simpa [List.append_assoc] using hnodup
    have ih := addReservedTicksLoop_spec oid rest (done ++ [(rid, q)])
      { db with orders_reserved_ticks :=
          db.orders_reserved_ticks ++ [reservedRowOf oid (rid, q)] }
      hfilter' hnodup'
    simp only [addReservedTicksLoop, horig]
    refine ⟨ih.1, ih.2.1, ?_⟩
    rw [ih.2.2]
    simp [List.append_assoc]

/-- C8: inserting an order aggregate with a fresh composite key, no stale
reservation rows under that key, and distinct reserved order ids, then
fetching it by id, returns exactly the inserted row and reservation list. -/
theorem add_order_get_order_roundtrip (db : MarketDBState) (row : OrderRow)
    (reserved : List (OrderId × QuantityVal))
    (hkey : db.orders.any
      (orderKeyIs ⟨row.trader_id, row.order_number⟩) = false)
    (hres : db.orders_reserved_ticks.filter
      (reservedOwnerIs ⟨row.trader_id, row.order_number⟩) = [])
    (hnodup : (reserved.map Prod.fst).Nodup) :
    (add_order db row reserved).2 = none ∧
    get_order (add_order db row reserved).1 ⟨row.trader_id, row.order_number⟩
      = some (row, reserved) := by
  have hred : add_order db row reserved =
      addReservedTicksLoop { db with orders := db.orders ++ [row] }
        ⟨row.trader_id, row.order_number⟩ reserved := by
    simp [add_order, hkey]
  have hloop := addReservedTicksLoop_spec ⟨row.trader_id, row.order_number⟩
    reserved [] { db with orders := db.orders ++ [row] }
    (by simpa using hres) (by simpa using hnodup)
  rw [hred]
  refine ⟨hloop.1, ?_⟩
  have hfind : (addReservedTicksLoop { db with orders := db.orders ++ [row] }
      ⟨row.trader_id, row.order_number⟩ reserved).1.orders.find?
        (orderKeyIs ⟨row.trader_id, row.order_number⟩) = some row := by
    rw [hloop.2.1]
    show (db.orders ++ [row]).find? _ = some row
    rw [List.find?_append]
    have hnone : db.orders.find?
        (orderKeyIs ⟨row.trader_id, row.order_number⟩) = none := by
      rw [List.find?_eq_none]
      intro x hx
      exact (List.any_eq_false.mp hkey) x hx
    rw [hnone]
    simp [orderKeyIs]
  have hticks : get_reserved_ticks
      (addReservedTicksLoop { db with orders := db.orders ++ [row] }
        ⟨row.trader_id, row.order_number⟩ reserved).1
      ⟨row.trader_id, row.order_number⟩ = reserved := by
    rw [get_reserved_ticks]
    have h3 := hloop.2.2
    simp only [List.nil_append] at h3
    rw [h3, List.map_map]
    exact List.map_id'' (fun p => rfl) reserved
  simp only [get_order, hfind, hticks, Order_from_database]

/-- Reservation list for the C8 witness: two entries with distinct reserved
order ids. -/
def witnessReserved : List (OrderId × QuantityVal) :=
  [(⟨"b", 2⟩, ⟨3, "BTC"⟩), (⟨"c", 7⟩, ⟨1, "BTC"⟩)]

/-- Witness for C8: a concrete order with two reservations round-trips
through the empty store. -/
theorem add_order_get_order_roundtrip_witness :
    (add_order emptyDB (sampleOrderRow 1) witnessReserved).2 = none ∧
    get_order (add_order emptyDB (sampleOrderRow 1) witnessReserved).1
      ⟨"a", 1⟩ = some (sampleOrderRow 1, witnessReserved) :=
  add_order_get_order_roundtrip emptyDB (sampleOrderRow 1) witnessReserved
    (by decide) (by decide) (by decide)

end MarketDB
